import Mathlib

/-!
Verification development for the tracing core of this repository:
a shallow embedding of `src/ethcore/src/trace/proxy_tracer.rs` and
`src/ethcore/src/trace/streaming_tracer.rs`, together with theorems about
the embedded operations.

Conventions of the embedding:
- `U256` values are modelled as `Nat` (the tracers never perform arithmetic
  on them, they only copy them into payloads), addresses as `Nat`, byte
  strings as `List Nat`.
- Rust methods taking `&mut self` become functions from the state to the new
  state; a method that may publish to the broker additionally returns the
  list of payloads it handed to `post_to_channel` (its observable output).
- The `info!`/`error!` textual logging calls are erased: the logging
  facility is an out-of-scope fire-and-forget sink.
- A Rust `panic!`/`expect` is modelled by an `Option` result: `none` is the
  aborted computation.
- Types that the two source files consume but that live outside them
  (`vm::ActionParams`, `trace::trace::VMTrace`, `RewardType`, the
  accumulating `ExecutiveTracer`, display/JSON-encoding of field values)
  are modelled from the spec and marked as such in their doc comments.
-/

/-- Machine word used for gas, value and balances (`ethereum_types::U256`);
no arithmetic is performed on it by the tracers, so it is modelled as `Nat`. -/
abbrev U256 := Nat

/-- A 160-bit account address (`ethereum_types::Address`); only copied and
compared by the tracers, so modelled as `Nat`. `Address::new()` is the zero
address. -/
abbrev Address := Nat

/-- A byte string (`bytes::Bytes` / `&[u8]`); modelled as a list. -/
abbrev Bytes := List Nat

/-- Modelled from the spec: the call classification of Call Parameters,
"ordinary/delegate/static/none" (§3). The source only names
`CallType::None` directly. -/
inductive CallType where
  | none
  | ordinary
  | delegate
  | static
deriving DecidableEq, Repr

/-- Modelled from the spec: the reward classification tag,
distinguishing "miner/uncle/empty-step rewards" (§4.1). The source only
names `RewardType::EmptyStep` directly. -/
inductive RewardType where
  | miner
  | uncle
  | emptyStep
deriving DecidableEq, Repr

/-- Modelled from the spec: an abnormal-completion error from the engine
("revert/out-of-gas/etc.", §4.1). The tracers only carry it through, so it
is an opaque code. -/
structure VmError where
  code : Nat
deriving DecidableEq, Repr

/-- Modelled from the spec: the value carried by Call Parameters. The source
reads it through `a.value.value()`, which yields the underlying amount for
either variant. -/
inductive ActionValue where
  | transfer (amount : U256)
  | apparent (amount : U256)
deriving DecidableEq, Repr

/-- The underlying amount of an `ActionValue` (the source's `.value()`). -/
def ActionValue.value : ActionValue → U256
  | ActionValue.transfer amount => amount
  | ActionValue.apparent amount => amount

/-- Modelled from the spec: Call Parameters produced by the engine
("code address, sender, recipient, origin, gas limit, gas price, value,
input bytes, call classification", §3); the fields are the ones the source
reads in `impl From<ActionParams> for MqStreamingPayload`. -/
structure ActionParams where
  code_address : Address
  sender : Address
  address : Address
  origin : Address
  gas : U256
  gas_price : U256
  value : ActionValue
  data : Option Bytes
  call_type : CallType
deriving DecidableEq, Repr

/-- Modelled from the spec: the flattened trace record, an "external output
type, opaque to this core" (§3); only returned verbatim, never inspected. -/
structure FlatTrace where
  id : Nat
deriving DecidableEq, Repr

/-- The MQ streaming payload of `streaming_tracer.rs` (struct
`MqStreamingPayload`). The source field `from` is a Lean keyword and is
rendered here as `from_addr`. -/
structure MqStreamingPayload where
  code_address : Address
  from_addr : Address
  to_addr : Address
  origin : Address
  gas : U256
  gas_price : U256
  gas_used : U256
  value : U256
  input_data : Option Bytes
  output_data : Option Bytes
  call_type : CallType
  reward_type : RewardType
deriving DecidableEq, Repr

/-- The `Default` impl for `MqStreamingPayload`: zero addresses, zero
amounts, no data, `CallType::None`, `RewardType::EmptyStep`. -/
def MqStreamingPayload.default : MqStreamingPayload :=
  { code_address := 0
    from_addr := 0
    to_addr := 0
    origin := 0
    gas := 0
    gas_price := 0
    gas_used := 0
    value := 0
    input_data := Option.none
    output_data := Option.none
    call_type := CallType.none
    reward_type := RewardType.emptyStep }

/-- The `impl From<ActionParams> for MqStreamingPayload` of the source:
field-by-field copy, with `gas_used` zero, `output_data` empty and
`reward_type` `EmptyStep`. -/
def MqStreamingPayload.from_action_params (a : ActionParams) : MqStreamingPayload :=
  { code_address := a.code_address
    from_addr := a.sender
    to_addr := a.address
    origin := a.origin
    gas := a.gas
    gas_price := a.gas_price
    gas_used := 0
    value := a.value.value
    input_data := a.data
    output_data := Option.none
    call_type := a.call_type
    reward_type := RewardType.emptyStep }

/-- The fragment of `rustc_serialize::json::Json` the source produces: the
`to_json` impl only ever builds `Json::Object` maps whose values are
`Json::String`, so the object carries its entries directly as string
pairs. -/
inductive Json where
  | str (s : String)
  | obj (entries : List (String × String))
deriving DecidableEq, Repr

/-- Modelled from the spec: the textual rendering of an address
(`format!` with the external `Display` impl of `ethereum_types::Address`);
an injective stand-in, its exact shape is out of scope (§1). -/
def formatAddress (a : Address) : String := toString a

/-- Modelled from the spec: the textual rendering of a `U256` amount
(external `Display` impl); an injective stand-in. -/
def formatU256 (v : U256) : String := toString v

/-- Modelled from the spec: the debug rendering (`format!` with the Debug
marker) of a call classification. -/
def formatCallType : CallType → String
  | CallType.none => "None"
  | CallType.ordinary => "Call"
  | CallType.delegate => "DelegateCall"
  | CallType.static => "StaticCall"

/-- Modelled from the spec: the debug rendering of a reward classification. -/
def formatRewardType : RewardType → String
  | RewardType.miner => "Block"
  | RewardType.uncle => "Uncle"
  | RewardType.emptyStep => "EmptyStep"

/-- The `impl ToJson for MqStreamingPayload` of the source: twelve keys are
inserted into a `BTreeMap` with string renderings of the fields, except
that the "input_data" and "output_data" keys are mapped to the constant
literals `format!` of the strings "input_data" and "output_data". A
`BTreeMap` iterates its keys in lexicographic order, so the entries are
listed here in that order. -/
def MqStreamingPayload.to_json (p : MqStreamingPayload) : Json :=
  Json.obj
    [ ("call_type", formatCallType p.call_type)
    , ("code_address", formatAddress p.code_address)
    , ("from", formatAddress p.from_addr)
    , ("gas", formatU256 p.gas)
    , ("gas_price", formatU256 p.gas_price)
    , ("gas_used", formatU256 p.gas_used)
    , ("input_data", "input_data")
    , ("origin", formatAddress p.origin)
    , ("output_data", "output_data")
    , ("reward_type", formatRewardType p.reward_type)
    , ("to", formatAddress p.to_addr)
    , ("value", formatU256 p.value) ]

/-- Modelled from the spec: JSON text encoding (`json::encode`), "assumed
available, not redesigned" (§1); a plain executable encoder over the `Json`
fragment above. -/
def jsonEncode : Json → String
  | Json.str s => "\"" ++ s ++ "\""
  | Json.obj entries =>
      "\x7b" ++
        String.intercalate ","
          (entries.map fun e => "\"" ++ e.1 ++ "\":\"" ++ e.2 ++ "\"") ++
      "\x7d"

/-- The `impl ToString for MqStreamingPayload` of the source: encode the
JSON value to text. -/
def MqStreamingPayload.to_string (p : MqStreamingPayload) : String :=
  jsonEncode p.to_json

/-- Key lookup in a `Json` object (for stating what `to_json` maps a given
key to). -/
def jsonLookup (j : Json) (key : String) : Option String :=
  match j with
  | Json.str _ => Option.none
  | Json.obj entries => entries.lookup key

/-- The MQ streaming tracer of `streaming_tracer.rs` (struct
`MqStreamingTracer`): the single-slot enter-event buffer
`last_action_params`, and the lapin client/channel handles, modelled as
opaque optional handles (present iff bootstrap reached them). -/
structure MqStreamingTracer where
  last_action_params : Option ActionParams
  client : Option Unit
  channel : Option Unit
deriving DecidableEq, Repr

/-- Source method `MqStreamingTracer::post_to_channel`: if a channel is open, the payload
is serialized and published on it (returned here as the singleton list of
published payloads); otherwise an error is logged and nothing is
published. -/
def MqStreamingTracer.post_to_channel (s : MqStreamingTracer)
    (payload : MqStreamingPayload) : List MqStreamingPayload :=
  match s.channel with
  | Option.some _ => [payload]
  | Option.none => []

/-- Source method `MqStreamingTracer::prepare_trace_call`: store a clone of the
parameters in the single-slot buffer; nothing is published. -/
def MqStreamingTracer.prepare_trace_call (s : MqStreamingTracer)
    (params : ActionParams) (_depth : Nat) (_is_builtin : Bool) :
    MqStreamingTracer × List MqStreamingPayload :=
  ({ s with last_action_params := Option.some params }, [])

/-- Source method `MqStreamingTracer::prepare_trace_create`: store a clone of the
parameters in the single-slot buffer; nothing is published. -/
def MqStreamingTracer.prepare_trace_create (s : MqStreamingTracer)
    (params : ActionParams) : MqStreamingTracer × List MqStreamingPayload :=
  ({ s with last_action_params := Option.some params }, [])

/-- Source method `MqStreamingTracer::done_trace_call`: if the buffer holds parameters,
build a payload from them, layer in `gas_used` and the output bytes, and
post it; otherwise log an error and post nothing. The buffer is cleared in
both branches. -/
def MqStreamingTracer.done_trace_call (s : MqStreamingTracer)
    (gas_used : U256) (output : Bytes) :
    MqStreamingTracer × List MqStreamingPayload :=
  match s.last_action_params with
  | Option.some lap =>
      let payload :=
        { MqStreamingPayload.from_action_params lap with
            gas_used := gas_used
            output_data := Option.some output }
      ({ s with last_action_params := Option.none }, s.post_to_channel payload)
  | Option.none =>
      ({ s with last_action_params := Option.none }, [])

/-- Source method `MqStreamingTracer::done_trace_create`: if the buffer holds parameters,
build a payload from them, layer in `gas_used` and the created address, and
post it; otherwise log an error and post nothing. The buffer is cleared in
both branches. The `code` argument is only logged. -/
def MqStreamingTracer.done_trace_create (s : MqStreamingTracer)
    (gas_used : U256) (_code : Bytes) (address : Address) :
    MqStreamingTracer × List MqStreamingPayload :=
  match s.last_action_params with
  | Option.some lap =>
      let payload :=
        { MqStreamingPayload.from_action_params lap with
            gas_used := gas_used
            code_address := address }
      ({ s with last_action_params := Option.none }, s.post_to_channel payload)
  | Option.none =>
      ({ s with last_action_params := Option.none }, [])

/-- Source method `MqStreamingTracer::done_trace_failed`: if the buffer holds parameters,
build a payload from them (outcome fields left at their `from` defaults)
and post it; otherwise log an error and post nothing. The buffer is cleared
in both branches. The source also computes an `is_create` flag that is
never read afterwards; it is erased here. The `error` argument is only
logged. -/
def MqStreamingTracer.done_trace_failed (s : MqStreamingTracer)
    (_error : VmError) : MqStreamingTracer × List MqStreamingPayload :=
  match s.last_action_params with
  | Option.some lap =>
      let payload := MqStreamingPayload.from_action_params lap
      ({ s with last_action_params := Option.none }, s.post_to_channel payload)
  | Option.none =>
      ({ s with last_action_params := Option.none }, [])

/-- Source method `MqStreamingTracer::trace_suicide`: build a default payload, fill
`code_address`, `to` and `value` from the event, and post it. The buffer is
not touched. -/
def MqStreamingTracer.trace_suicide (s : MqStreamingTracer)
    (address : Address) (balance : U256) (refund_address : Address) :
    MqStreamingTracer × List MqStreamingPayload :=
  let payload :=
    { MqStreamingPayload.default with
        code_address := address
        to_addr := refund_address
        value := balance }
  (s, s.post_to_channel payload)

/-- Source method `MqStreamingTracer::trace_reward`: build a default payload, fill `to`,
`value` and `reward_type` from the event, and post it. The buffer is not
touched. -/
def MqStreamingTracer.trace_reward (s : MqStreamingTracer)
    (author : Address) (value : U256) (reward_type : RewardType) :
    MqStreamingTracer × List MqStreamingPayload :=
  let payload :=
    { MqStreamingPayload.default with
        to_addr := author
        value := value
        reward_type := reward_type }
  (s, s.post_to_channel payload)

/-- Source method `MqStreamingTracer::drain`: returns the empty record sequence. -/
def MqStreamingTracer.drain (_ : MqStreamingTracer) : List FlatTrace := []

/-- The no-op streaming tracer of `streaming_tracer.rs` (struct
`NoopStreamingTracer`): no state; every event method only logs. -/
structure NoopStreamingTracer where
deriving DecidableEq, Repr

/-- Source method `NoopStreamingTracer::drain`: returns the empty record sequence. -/
def NoopStreamingTracer.drain (_ : NoopStreamingTracer) : List FlatTrace := []

/-- Modelled from the spec: the in-process accumulating tracer
(`trace::executive_tracer::ExecutiveTracer`), an "opaque capability
implementation" (§1) whose `drain` "consumes the sink and returns the
accumulated flattened record sequence" (§4.1); its state is that
accumulated sequence. -/
structure ExecutiveTracer where
  traces : List FlatTrace
deriving DecidableEq, Repr

/-- Modelled from the spec: the accumulating tracer's `drain` returns its
accumulated flattened record sequence. -/
def ExecutiveTracer.drain (t : ExecutiveTracer) : List FlatTrace := t.traces

/-- One Event Sink operation (the seven event methods of the `Tracer`
capability of §4.1), with its argument values. -/
inductive Event where
  | prepareTraceCall (params : ActionParams) (depth : Nat) (is_builtin : Bool)
  | prepareTraceCreate (params : ActionParams)
  | doneTraceCall (gas_used : U256) (output : Bytes)
  | doneTraceCreate (gas_used : U256) (code : Bytes) (address : Address)
  | doneTraceFailed (error : VmError)
  | traceSuicide (address : Address) (balance : U256) (refund_address : Address)
  | traceReward (author : Address) (value : U256) (reward_type : RewardType)
deriving DecidableEq, Repr

/-- The two members configured in `ProxyTracer`: the inner accumulating
tracer (`inner_tracer`, an `ExecutiveTracer`) and the streaming member
(`streaming_tracer`, a `NoopStreamingTracer`). -/
inductive Member where
  | innerTracer
  | streamingTracer
deriving DecidableEq, Repr

/-- The proxy tracer of `proxy_tracer.rs` (struct `ProxyTracer`): the inner
accumulating tracer and the streaming tracer member. -/
structure ProxyTracer where
  inner_tracer : ExecutiveTracer
  streaming_tracer : NoopStreamingTracer
deriving DecidableEq, Repr

/-- The member invocations made by one Event Sink method of
`impl Tracer for ProxyTracer`, in source order. Each arm mirrors one method
body of the source: the method calls the same method on `inner_tracer` with
its own arguments and then logs; no method of `streaming_tracer` is called.
In `trace_reward` the source clones the tag into `rt` for the log line and
passes the original tag on to `inner_tracer`. -/
def ProxyTracer.relay : Event → List (Member × Event)
  | Event.prepareTraceCall params depth b =>
      [(Member.innerTracer, Event.prepareTraceCall params depth b)]
  | Event.prepareTraceCreate params =>
      [(Member.innerTracer, Event.prepareTraceCreate params)]
  | Event.doneTraceCall gas_used output =>
      [(Member.innerTracer, Event.doneTraceCall gas_used output)]
  | Event.doneTraceCreate gas_used code address =>
      [(Member.innerTracer, Event.doneTraceCreate gas_used code address)]
  | Event.doneTraceFailed error =>
      [(Member.innerTracer, Event.doneTraceFailed error)]
  | Event.traceSuicide address balance refund_address =>
      [(Member.innerTracer, Event.traceSuicide address balance refund_address)]
  | Event.traceReward author value reward_type =>
      [(Member.innerTracer, Event.traceReward author value reward_type)]

/-- The member invocations made by a sequence of Event Sink operations on
the proxy, in order. -/
def ProxyTracer.relaySeq (events : List Event) : List (Member × Event) :=
  events.flatMap ProxyTracer.relay

/-- Source method `ProxyTracer::drain`: returns `self.inner_tracer.drain()`. The second
component instruments which members had their `drain` invoked, in source
order: only the inner tracer's. -/
def ProxyTracer.drain (p : ProxyTracer) : List FlatTrace × List Member :=
  (p.inner_tracer.drain, [Member.innerTracer])

/-- Modelled from the spec: one per-instruction operation record of the
VM-Operation tree (§3); opaque to the navigator, so an abstract code. -/
abbrev VMOperation := Nat

/-- Modelled from the spec: a VM-Operation tree node, "an ordered sequence
of per-instruction operation records, and an ordered sequence of child tree
nodes" (§3); the source type `trace::trace::VMTrace`, of which
`with_trace_in_depth` reads the `subs` children. -/
inductive VMTrace where
  | node (operations : List VMOperation) (subs : List VMTrace)
deriving Repr

/-- The ordered children of a VM-Operation tree node (field `subs`). -/
def VMTrace.subs : VMTrace → List VMTrace
  | VMTrace.node _ s => s

/-- The operation records of a VM-Operation tree node. -/
def VMTrace.operations : VMTrace → List VMOperation
  | VMTrace.node ops _ => ops

/-- Descend `depth` times into the last child of the tree: the node at the
given depth along the last-child chain, or `none` when the chain is shorter
than `depth`. `(descendLast t d).isSome` states that a last-child chain of
length `d` exists from the root, the depth invariant of §3. -/
def descendLast : VMTrace → Nat → Option VMTrace
  | t, 0 => Option.some t
  | t, Nat.succ d =>
      match t.subs.getLast? with
      | Option.some c => descendLast c d
      | Option.none => Option.none

/-- Source method `ProxyVMTracer::with_trace_in_depth`: at depth 0 apply the mutation `f`
to the current node; otherwise recurse into `trace.subs.last_mut()`,
mutating the last child in place (here: its replacement at the end of
`subs`). The source's `expect` panic on a missing last child is modelled as
`none`. -/
def with_trace_in_depth (trace : VMTrace) (depth : Nat) (f : VMTrace → VMTrace) :
    Option VMTrace :=
  match depth with
  | 0 => Option.some (f trace)
  | Nat.succ d =>
      match trace.subs.getLast? with
      | Option.some c =>
          match with_trace_in_depth c d f with
          | Option.some c2 =>
              Option.some (VMTrace.node trace.operations (trace.subs.dropLast ++ [c2]))
          | Option.none => Option.none
      | Option.none => Option.none

/-! ### Helper lemmas -/

/-- Appending a single element makes it the last element. -/
theorem getLast?_append_singleton {α : Type} (l : List α) (a : α) :
    (l ++ [a]).getLast? = Option.some a := by
  rw [List.getLast?_append_cons]
  rfl

/-- Each single Event Sink operation on the proxy is relayed to the inner
tracer with the identical arguments, and to nobody else. -/
theorem proxyRelay_eq (e : Event) :
    ProxyTracer.relay e = [(Member.innerTracer, e)] := by
  cases e <;> rfl

/-! ### Claims -/

/-- C1 counterexample: the Event Sink operations of the Composite Sink are
not relayed to the streaming tracer member. At the concrete reward event
with author 3, value 5 and the uncle tag, the list of member invocations
made by the composite does not contain an invocation of the streaming
member. -/
theorem proxyRelay_misses_streaming_member :
    ¬ ((Member.streamingTracer, Event.traceReward 3 5 RewardType.uncle) ∈
        ProxyTracer.relay (Event.traceReward 3 5 RewardType.uncle)) := by
  decide

/-- C1 (amended): for every sequence of Event Sink operations invoked on
the Composite Sink (ProxyTracer), each operation is relayed, in order, with
identical argument values — the reward tag included — to the inner
accumulating tracer only; the streaming tracer member is never invoked. -/
theorem proxyRelay_inner_only_in_order (events : List Event) :
    ProxyTracer.relaySeq events =
      events.map (fun e => (Member.innerTracer, e)) := by
  induction events with
  | nil => rfl
  | cons e es ih =>
      show ProxyTracer.relay e ++ ProxyTracer.relaySeq es = _
      rw [proxyRelay_eq, ih]
      rfl

/-- C2 counterexample: `drain` on the Composite Sink does not invoke
`drain` on every member. For the concrete composite whose inner tracer has
accumulated nothing, the list of members whose `drain` is invoked does not
contain the streaming member. -/
theorem proxyDrain_misses_streaming_member :
    ¬ (Member.streamingTracer ∈
        (ProxyTracer.drain ⟨⟨[]⟩, ⟨⟩⟩).2) := by
  decide

/-- C2 (amended): `drain` on the Composite Sink invokes `drain` only on the
inner accumulating tracer — the streaming member's `drain` is never
invoked — and the composite's return value equals the inner tracer's drain
result verbatim. -/
theorem proxyDrain_inner_only_verbatim (p : ProxyTracer) :
    ProxyTracer.drain p =
      (ExecutiveTracer.drain p.inner_tracer, [Member.innerTracer]) := rfl

/-- C3: with the broker channel open, one enter-call with parameters
`params` followed by one exit-call with gas-used 21000 and empty output
publishes exactly one payload, whose `from` field is the sender of
`params`, whose `to` field is the address of `params`, whose `gas_used`
field is 21000 and whose `output_data` field is `Some([])`. -/
theorem streaming_call_roundtrip_publishes_once (s : MqStreamingTracer)
    (params : ActionParams) (depth : Nat) (b : Bool)
    (h : s.channel = Option.some ()) :
    ∃ pl : MqStreamingPayload,
      (s.prepare_trace_call params depth b).2 ++
        ((s.prepare_trace_call params depth b).1.done_trace_call 21000 []).2 =
        [pl] ∧
      pl.from_addr = params.sender ∧
      pl.to_addr = params.address ∧
      pl.gas_used = 21000 ∧
      pl.output_data = Option.some [] := by
  refine ⟨{ MqStreamingPayload.from_action_params params with
              gas_used := 21000
              output_data := Option.some [] }, ?_, rfl, rfl, rfl, rfl⟩
  simp [MqStreamingTracer.prepare_trace_call, MqStreamingTracer.done_trace_call,
        MqStreamingTracer.post_to_channel, h]

/-- C3 witness: the round trip at a concrete tracer with an open channel
and concrete call parameters. -/
theorem streaming_call_roundtrip_publishes_once_witness :
    (MqStreamingTracer.mk Option.none Option.none
        (Option.some ())).channel = Option.some () ∧
    (∃ pl : MqStreamingPayload,
      ((MqStreamingTracer.mk Option.none Option.none
          (Option.some ())).prepare_trace_call
            ⟨1, 2, 3, 4, 5, 6, ActionValue.transfer 7, Option.some [8],
              CallType.ordinary⟩ 0 false).2 ++
        (((MqStreamingTracer.mk Option.none Option.none
            (Option.some ())).prepare_trace_call
              ⟨1, 2, 3, 4, 5, 6, ActionValue.transfer 7, Option.some [8],
                CallType.ordinary⟩ 0 false).1.done_trace_call 21000 []).2 =
        [pl] ∧
      pl.from_addr = 2 ∧
      pl.to_addr = 3 ∧
      pl.gas_used = 21000 ∧
      pl.output_data = Option.some []) :=
  ⟨rfl, streaming_call_roundtrip_publishes_once _ _ 0 false rfl⟩

/-- C4: from every starting buffer state, an enter-call or enter-create
leaves the single-slot buffer holding exactly the parameters of that event,
and each of the three exit events leaves the buffer empty. -/
theorem buffer_overwritten_on_enter_cleared_on_exit (s : MqStreamingTracer)
    (params : ActionParams) (depth : Nat) (b : Bool) (g : U256) (o c : Bytes)
    (a : Address) (e : VmError) :
    (s.prepare_trace_call params depth b).1.last_action_params =
      Option.some params ∧
    (s.prepare_trace_create params).1.last_action_params =
      Option.some params ∧
    (s.done_trace_call g o).1.last_action_params = Option.none ∧
    (s.done_trace_create g c a).1.last_action_params = Option.none ∧
    (s.done_trace_failed e).1.last_action_params = Option.none := by
  refine ⟨rfl, rfl, ?_, ?_, ?_⟩ <;>
    cases h : s.last_action_params <;>
      simp [MqStreamingTracer.done_trace_call,
            MqStreamingTracer.done_trace_create,
            MqStreamingTracer.done_trace_failed, h]

/-- C5: an exit event arriving while the enter-event buffer is empty
publishes nothing, constructs no payload, leaves the tracer state
unchanged, and returns normally. -/
theorem exit_on_empty_buffer_drops_event (s : MqStreamingTracer)
    (g : U256) (o c : Bytes) (a : Address) (e : VmError)
    (h : s.last_action_params = Option.none) :
    s.done_trace_call g o = (s, []) ∧
    s.done_trace_create g c a = (s, []) ∧
    s.done_trace_failed e = (s, []) := by
  obtain ⟨lap, cl, ch⟩ := s
  simp only at h
  subst h
  exact ⟨rfl, rfl, rfl⟩

/-- C5 witness: the three exit events at a concrete tracer whose buffer is
empty. -/
theorem exit_on_empty_buffer_drops_event_witness :
    (MqStreamingTracer.mk Option.none Option.none
        (Option.some ())).last_action_params = Option.none ∧
    ((MqStreamingTracer.mk Option.none Option.none
        (Option.some ())).done_trace_call 21000 [] =
      (MqStreamingTracer.mk Option.none Option.none (Option.some ()), []) ∧
    (MqStreamingTracer.mk Option.none Option.none
        (Option.some ())).done_trace_create 9 [1] 4 =
      (MqStreamingTracer.mk Option.none Option.none (Option.some ()), []) ∧
    (MqStreamingTracer.mk Option.none Option.none
        (Option.some ())).done_trace_failed ⟨2⟩ =
      (MqStreamingTracer.mk Option.none Option.none (Option.some ()), [])) :=
  ⟨rfl, exit_on_empty_buffer_drops_event _ 21000 [] [1] 4 ⟨2⟩ rfl⟩

/-- Unfolding of the descent at a positive depth: take the last child and
continue, failing when there is none. -/
theorem descendLast_succ (t : VMTrace) (d : Nat) :
    descendLast t (d + 1) = (t.subs.getLast?).bind (fun c => descendLast c d) := by
  cases hl : t.subs.getLast? <;> simp [descendLast, hl]

/-- Unfolding of the navigator at a positive depth: recurse into the last
child and put the mutated child back as the last element, failing when
there is no child or the recursion failed. -/
theorem with_trace_in_depth_succ (t : VMTrace) (d : Nat) (f : VMTrace → VMTrace) :
    with_trace_in_depth t (d + 1) f =
      (t.subs.getLast?).bind (fun c =>
        (with_trace_in_depth c d f).map (fun c2 =>
          VMTrace.node t.operations (t.subs.dropLast ++ [c2]))) := by
  cases hl : t.subs.getLast? with
  | none => simp [with_trace_in_depth, hl]
  | some c => cases hw : with_trace_in_depth c d f <;>
      simp [with_trace_in_depth, hl, hw]

/-- C6: for every VM-Operation tree, depth `d` along whose last-child
chain a node `x` exists, and every mutation `f`, the Depth Navigator
succeeds and the node reached by descending into the last child `d` times
in the result is exactly `f x`: the mutation is applied to the node at
depth `d`. In particular, on the tree built by `n` sequential subtrace
pushes along a single path the last-child chain is that path, so depth `n`
reaches the node created by the `n`-th push, and depth 0 applies the
mutation to the root. -/
theorem navigator_mutates_node_at_depth (t : VMTrace) (d : Nat)
    (f : VMTrace → VMTrace) (x : VMTrace)
    (h : descendLast t d = Option.some x) :
    (with_trace_in_depth t d f).bind (fun t2 => descendLast t2 d) =
      Option.some (f x) := by
  induction d generalizing t with
  | zero =>
      simp only [descendLast, Option.some.injEq] at h
      subst h
      rfl
  | succ d ih =>
      rw [descendLast_succ] at h
      rw [with_trace_in_depth_succ]
      cases hl : t.subs.getLast? with
      | none => rw [hl] at h; simp at h
      | some c =>
          rw [hl] at h
          simp only [Option.some_bind] at h
          simp only [Option.some_bind]
          have hc := ih c h
          cases hw : with_trace_in_depth c d f with
          | none => rw [hw] at hc; simp at hc
          | some c2 =>
              rw [hw] at hc
              simp only [Option.some_bind] at hc
              show descendLast (VMTrace.node t.operations
                (t.subs.dropLast ++ [c2])) (d + 1) = Option.some (f x)
              rw [descendLast_succ]
              simp only [VMTrace.subs]
              rw [getLast?_append_singleton]
              simpa using hc

/-- C6 witness: the navigator at depth 1 on the two-node chain, with a
mutation replacing the node. -/
theorem navigator_mutates_node_at_depth_witness :
    descendLast (VMTrace.node [] [VMTrace.node [1] []]) 1 =
      Option.some (VMTrace.node [1] []) ∧
    (with_trace_in_depth (VMTrace.node [] [VMTrace.node [1] []]) 1
        (fun _ => VMTrace.node [7] [])).bind (fun t2 => descendLast t2 1) =
      Option.some (VMTrace.node [7] []) :=
  ⟨rfl, navigator_mutates_node_at_depth _ 1 _ _ rfl⟩

/-- C7: the Depth Navigator reaches its failure branch (the source panic
on a missing last child) exactly when no last-child chain of the requested
length exists: under the depth invariant of §3 — the requested depth is
within the last-child chain, `(descendLast t d).isSome` — the panic is
unreachable, and for a depth with no corresponding child the navigator
panics rather than silently doing nothing. -/
theorem navigator_panics_iff_chain_missing (t : VMTrace) (d : Nat)
    (f : VMTrace → VMTrace) :
    (with_trace_in_depth t d f).isSome ↔ (descendLast t d).isSome := by
  induction d generalizing t with
  | zero => simp [with_trace_in_depth, descendLast]
  | succ d ih =>
      rw [with_trace_in_depth_succ, descendLast_succ]
      cases hl : t.subs.getLast? with
      | none => simp
      | some c =>
          simp only [Option.some_bind]
          rw [← ih c]
          cases hw : with_trace_in_depth c d f <;> simp

/-- C8: with the broker channel open, a self-destruct event with address
`address`, balance `balance` and refund address `refund_address` publishes
exactly one payload whose `code_address` is `address`, whose `to` is
`refund_address` and whose `value` is `balance`, with every other field at
its default; the tracer state (the enter-event buffer included) is left
unchanged, and the published payload does not depend on the buffer's
contents. -/
theorem suicide_payload_ignores_buffer (s : MqStreamingTracer)
    (address : Address) (balance : U256) (refund_address : Address)
    (h : s.channel = Option.some ()) :
    s.trace_suicide address balance refund_address =
      (s, [{ MqStreamingPayload.default with
               code_address := address
               to_addr := refund_address
               value := balance }]) := by
  simp [MqStreamingTracer.trace_suicide, MqStreamingTracer.post_to_channel, h]

/-- C8 witness: a self-destruct with address 1, balance 100 and refund
address 2 at a concrete tracer with an open channel and a non-empty
buffer. -/
theorem suicide_payload_ignores_buffer_witness :
    (MqStreamingTracer.mk
        (Option.some ⟨9, 9, 9, 9, 9, 9, ActionValue.apparent 9,
          Option.none, CallType.none⟩)
        Option.none (Option.some ())).channel = Option.some () ∧
    (MqStreamingTracer.mk
        (Option.some ⟨9, 9, 9, 9, 9, 9, ActionValue.apparent 9,
          Option.none, CallType.none⟩)
        Option.none (Option.some ())).trace_suicide 1 100 2 =
      (MqStreamingTracer.mk
        (Option.some ⟨9, 9, 9, 9, 9, 9, ActionValue.apparent 9,
          Option.none, CallType.none⟩)
        Option.none (Option.some ()),
       [{ MqStreamingPayload.default with
            code_address := 1
            to_addr := 2
            value := 100 }]) :=
  ⟨rfl, suicide_payload_ignores_buffer _ 1 100 2 rfl⟩

/-- C9: `drain` of the Broker Publisher returns the empty record sequence
in every state, and so does `drain` of the no-op streaming sink. -/
theorem streaming_drain_empty (s : MqStreamingTracer)
    (n : NoopStreamingTracer) :
    s.drain = [] ∧ n.drain = [] := ⟨rfl, rfl⟩

/-- C10: the JSON serialization of a payload maps the key "input_data" to
the constant string "input_data" and the key "output_data" to the constant
string "output_data", and two payloads differing only in their `input_data`
and `output_data` byte fields serialize to identical text: the actual
input/output bytes never reach the broker. -/
theorem payload_bytes_never_serialized (p : MqStreamingPayload)
    (i o : Option Bytes) :
    jsonLookup p.to_json "input_data" = Option.some "input_data" ∧
    jsonLookup p.to_json "output_data" = Option.some "output_data" ∧
    MqStreamingPayload.to_string
        { p with input_data := i, output_data := o } =
      p.to_string := by
  refine ⟨?_, ?_, rfl⟩ <;>
    simp [jsonLookup, MqStreamingPayload.to_json, List.lookup]
